import Mathlib

/-!
# Verification of the GitHub Issue Assistant backend

Shallow embedding of the backend modules of the `github-issue-assistant`
repository (`app/models.py`, `app/llm_analyzer.py`, `app/github_client.py`,
`app/main.py`) and proofs of the specification's testable properties.

Conventions of the embedding:
* Python strings are Lean `String`; `str.replace(" ", "_")` with a one-character
  pattern is the character-wise map; `str.strip()` / `str.lower()` are the core
  `String.trim` / `String.toLower` (both sides treat the ASCII inputs of the
  claims identically).
* JSON scalar field values are the inductive `JsonVal` (string or integer); a
  provider reply already parsed from JSON is the record `ProviderReply` with an
  `Option` per field (Python `dict.get` with a default).
* Exceptions become `Except` values whose error type records the distinct
  exception kinds raised by the code.
* Wall-clock time (`time.time()`) is modelled as `Nat`; only its ordering and
  the addition of the TTL matter to the code.
-/

set_option autoImplicit false

namespace IssueAssistant

/-! ## Data model (`app/models.py`) -/

/-- `IssueType(str, Enum)` from `models.py`: the five classification values. -/
inductive IssueType where
  | bug
  | feature_request
  | documentation
  | question
  | other
deriving DecidableEq, Repr

/-- The `.value` string of each enum member. -/
def IssueType.value : IssueType → String
  | .bug => "bug"
  | .feature_request => "feature_request"
  | .documentation => "documentation"
  | .question => "question"
  | .other => "other"

/-- The set `{t.value for t in IssueType}` used by the normalization step. -/
def issueTypeValues : List String :=
  ["bug", "feature_request", "documentation", "question", "other"]

/-- `IssueType(s)`: the enum member whose value is `s`, if any. -/
def IssueType.ofValue? (s : String) : Option IssueType :=
  if s = "bug" then some .bug
  else if s = "feature_request" then some .feature_request
  else if s = "documentation" then some .documentation
  else if s = "question" then some .question
  else if s = "other" then some .other
  else none

/-- `IssueAnalysis` from `models.py` (field values after pydantic validation). -/
structure IssueAnalysis where
  summary : String
  type : IssueType
  priority_score : String
  suggested_labels : List String
  potential_impact : String
deriving DecidableEq, Repr

/-- Pydantic construction of `IssueAnalysis`: the only constraint not already
enforced by the Lean field types is `suggested_labels: min_items=1, max_items=5`
(`models.py` line 21); a violation raises `ValidationError`. -/
def mkIssueAnalysis (summary : String) (type : IssueType) (priority_score : String)
    (suggested_labels : List String) (potential_impact : String) : Option IssueAnalysis :=
  if 1 ≤ suggested_labels.length ∧ suggested_labels.length ≤ 5 then
    some ⟨summary, type, priority_score, suggested_labels, potential_impact⟩
  else
    none

/-! ## Provider replies and the analyzer (`app/llm_analyzer.py`) -/

/-- A JSON scalar as it reaches the normalization code: the provider may return
a string or a number for fields such as `type` and `priority_score`. -/
inductive JsonVal where
  | jstr (s : String)
  | jnum (n : Int)
deriving DecidableEq, Repr

/-- Python `str(...)` applied to a JSON scalar. -/
def JsonVal.pyStr : JsonVal → String
  | .jstr s => s
  | .jnum n => toString n

/-- Python `isinstance(v, str)`. -/
def JsonVal.isStr : JsonVal → Bool
  | .jstr _ => true
  | .jnum _ => false

/-- A provider reply after successful JSON parsing; each field is `none` when
the key is absent from the parsed object (`parsed.get(...)` then yields the
default). -/
structure ProviderReply where
  summary? : Option String
  type? : Option JsonVal
  priority_score? : Option JsonVal
  suggested_labels? : Option (List String)
  potential_impact? : Option String
deriving DecidableEq, Repr

/-- Python `str.strip()`: remove leading and trailing whitespace. -/
def pyStrip (s : String) : String :=
  (((s.toList.dropWhile Char.isWhitespace).reverse.dropWhile Char.isWhitespace).reverse).asString

/-- Python `str.lower()` (character-wise, ASCII range as in the inputs at hand). -/
def pyLower (s : String) : String :=
  (s.toList.map Char.toLower).asString

/-- Python `s.replace(" ", "_")`: with a one-character pattern this is the
character-wise substitution. -/
def replaceSpaces (s : String) : String :=
  (s.toList.map (fun c => if c = ' ' then '_' else c)).asString

/-- Lines 125–127 of `llm_analyzer.py`, given the raw string obtained from
`str(parsed.get("type", "other"))`:
`parsed_type = raw.strip().lower().replace(" ", "_")`, then substitute
`"other"` when the result is not a known enum value. -/
def normalizeTypeStr (raw : String) : String :=
  let parsed_type := replaceSpaces (pyLower (pyStrip raw))
  if issueTypeValues.contains parsed_type then parsed_type else "other"

/-- `str(parsed.get("type", "other"))`. -/
def typeFieldStr (type? : Option JsonVal) : String :=
  match type? with
  | none => "other"
  | some v => v.pyStr

/-- Lines 130–132 of `llm_analyzer.py`: `prio = parsed.get("priority_score", "1")`
followed by `if not isinstance(prio, str): prio = str(prio)`. -/
def normalizePriority (priority_score? : Option JsonVal) : String :=
  match priority_score? with
  | none => "1"
  | some v => if v.isStr then v.pyStr else v.pyStr

/-- Line 138 of `llm_analyzer.py`: `parsed.get("suggested_labels", [])[:5]`. -/
def normalizeLabels (suggested_labels? : Option (List String)) : List String :=
  (suggested_labels?.getD []).take 5

/-- The outcome of the provider call in `analyze_issue`, as seen by the
normalization code: either the provider produced text (`content`, with `none`
when `json.loads` fails on it) or the call itself raised (`transportError`). -/
inductive ProviderResult where
  | content (parsed? : Option ProviderReply)
  | transportError (msg : String)
deriving DecidableEq, Repr

/-- The exceptions `analyze_issue` raises, by kind: `malformedResponse` is the
`ValueError("Failed to parse LLM response: ...")` of line 142 (raised when
`json.loads` fails, and caught by the dedicated `except json.JSONDecodeError`
clause); `analysisError` is the generic
`Exception("Error during LLM analysis: ...")` of line 144 that wraps every
other failure, including provider transport errors and pydantic validation
errors. -/
inductive AnalyzerError where
  | malformedResponse (msg : String)
  | analysisError (msg : String)
deriving DecidableEq, Repr

/-- `LLMAnalyzer.analyze_issue` (lines 98–144 of `llm_analyzer.py`) from the
point the provider call resolves: parse the reply, normalize `type`,
`priority_score` and `suggested_labels`, default the free-text fields to `""`,
and validate the result as an `IssueAnalysis`.

The call `IssueType(parsed_type)` cannot raise because the preceding
substitution guarantees `parsed_type ∈ issueTypeValues`; the `.getD .other`
branch is therefore unreachable (see `normalizeTypeStr_mem`). -/
def analyze_issue (r : ProviderResult) : Except AnalyzerError IssueAnalysis :=
  match r with
  | .transportError msg =>
      .error (.analysisError ("Error during LLM analysis: " ++ msg))
  | .content none =>
      .error (.malformedResponse "Failed to parse LLM response")
  | .content (some parsed) =>
      let parsed_type := normalizeTypeStr (typeFieldStr parsed.type?)
      let prio := normalizePriority parsed.priority_score?
      let labels := normalizeLabels parsed.suggested_labels?
      match mkIssueAnalysis (parsed.summary?.getD "") ((IssueType.ofValue? parsed_type).getD .other)
          prio labels (parsed.potential_impact?.getD "") with
      | some a => .ok a
      | none => .error (.analysisError "Error during LLM analysis: validation error")

/-! ## GitHub client (`app/github_client.py`) -/

/-- The observable outcome of one `httpx` GET as the client code sees it:
`success` when `raise_for_status()` passes (body = `response.json()`),
`httpError` when it raises `HTTPStatusError` (carrying the status code and the
two rate-limit headers), `requestError` when the request itself fails
(`httpx.RequestError`). The JSON bodies are kept opaque as raw strings. -/
inductive HttpOutcome (α : Type) where
  | success (body : α)
  | httpError (status : Nat) (rateLimitRemaining : Option String) (rateLimitReset : Option String)
  | requestError (msg : String)
deriving DecidableEq, Repr

/-- `fastapi.HTTPException` as raised by the client: status code plus detail. -/
structure HTTPError where
  status_code : Nat
  detail : String
deriving DecidableEq, Repr

/-- `GitHubClient.get_issue` (lines 46–82): success returns the body; 404 is a
hard not-found error; 403 with `X-RateLimit-Remaining: 0` becomes 429; any
other HTTP status propagates as-is; a connection failure becomes 503. -/
def get_issue (owner repo : String) (issue_number : Nat) (resp : HttpOutcome String) :
    Except HTTPError String :=
  match resp with
  | .success body => .ok body
  | .httpError status rateLimitRemaining rateLimitReset =>
      if status = 404 then
        .error ⟨404, "Issue #" ++ toString issue_number ++ " not found in " ++ owner ++ "/"
          ++ repo ++ " or repository is private"⟩
      else if status = 403 ∧ rateLimitRemaining = some "0" then
        .error ⟨429, "GitHub API rate limit exceeded, reset at "
          ++ (rateLimitReset.getD "unknown")⟩
      else
        .error ⟨status, "GitHub API error"⟩
  | .requestError msg => .error ⟨503, "Failed to connect to GitHub API: " ++ msg⟩

/-- `GitHubClient.get_issue_comments` (lines 84–104): success returns the list;
404 is soft-failed into an empty comment list; any other HTTP status
propagates; a connection failure becomes 503. -/
def get_issue_comments (resp : HttpOutcome (List String)) :
    Except HTTPError (List String) :=
  match resp with
  | .success body => .ok body
  | .httpError status _ _ =>
      if status = 404 then
        .ok []
      else
        .error ⟨status, "Failed to fetch comments"⟩
  | .requestError msg => .error ⟨503, "Failed to connect to GitHub API: " ++ msg⟩

/-- The cached unit: `{"issue": issue, "comments": comments}`. -/
structure Bundle where
  issue : String
  comments : List String
deriving DecidableEq, Repr

/-- A cache key `(owner, repo, issue_number)`. -/
structure CacheKey where
  owner : String
  repo : String
  issue_number : Nat
deriving DecidableEq, Repr

/-- The mutable state of a `GitHubClient`: the two dictionaries `_cache` and
`_cache_expiry` (modelled as maps from keys to optional entries) and the fixed
`ttl_seconds` read once at construction. -/
structure ClientState where
  cache : CacheKey → Option Bundle
  cache_expiry : CacheKey → Option Nat
  ttl_seconds : Nat

/-- `GitHubClient._cache_get` (lines 30–39), with `time.time()` passed in as
`now`.  Returns the hit (if any) together with the state after the lazy purge:
an unexpired entry is returned without mutation (`self._cache_expiry.get(key, 0)
> now`); otherwise, if the key is present, both dictionary entries for that key
are popped; a miss leaves the state untouched. -/
def cache_get (st : ClientState) (now : Nat) (key : CacheKey) :
    Option Bundle × ClientState :=
  if (st.cache key).isSome ∧ now < (st.cache_expiry key).getD 0 then
    (st.cache key, st)
  else if (st.cache key).isSome then
    (none,
      { st with
        cache := fun k => if k = key then none else st.cache k,
        cache_expiry := fun k => if k = key then none else st.cache_expiry k })
  else
    (none, st)

/-- `GitHubClient._cache_set` (lines 41–44): store the value and an absolute
expiry of `time.time() + self.ttl_seconds`. -/
def cache_set (st : ClientState) (now : Nat) (key : CacheKey) (value : Bundle) :
    ClientState :=
  { st with
    cache := fun k => if k = key then some value else st.cache k,
    cache_expiry := fun k => if k = key then some (now + st.ttl_seconds) else st.cache_expiry k }

/-- Result of one `get_issue_data` call: the returned value or raised error,
the client state afterwards, and the number of outbound HTTP requests issued
during the call. -/
structure FetchResult where
  result : Except HTTPError Bundle
  state : ClientState
  networkCalls : Nat

/-- `GitHubClient.get_issue_data` (lines 106–117): try the cache first and
return the hit as-is; on miss, fetch the issue, then the comments (the network
is modelled by the two response oracles `issueNet` / `commentsNet`, one HTTP
request each), assemble the bundle, cache it with a fresh expiry and return
it.  An error from either fetch propagates and nothing is cached. -/
def get_issue_data (st : ClientState) (now : Nat) (key : CacheKey)
    (issueNet : CacheKey → HttpOutcome String)
    (commentsNet : CacheKey → HttpOutcome (List String)) : FetchResult :=
  match cache_get st now key with
  | (some cached, st1) => ⟨.ok cached, st1, 0⟩
  | (none, st1) =>
      match get_issue key.owner key.repo key.issue_number (issueNet key) with
      | .error e => ⟨.error e, st1, 1⟩
      | .ok issue =>
          match get_issue_comments (commentsNet key) with
          | .error e => ⟨.error e, st1, 2⟩
          | .ok comments =>
              let result : Bundle := ⟨issue, comments⟩
              ⟨.ok result, cache_set st1 now key result, 2⟩

/-! ## Request handler (`app/main.py`) -/

/-- Python `needle in hay` for strings: substring containment. -/
def containsSub (needle : List Char) : List Char → Bool
  | [] => needle.isEmpty
  | c :: rest => needle.isPrefixOf (c :: rest) || containsSub needle rest

/-- Python `'needle' in hay` on strings. -/
def pyContains (hay needle : String) : Bool :=
  containsSub needle.toList hay.toList

/-- Python `s.rstrip('/')`: remove every trailing slash. -/
def pyRstripSlash (s : String) : String :=
  ((s.toList.reverse.dropWhile (fun c => c = '/')).reverse).asString

/-- Helper for Python `str.split(sep)`: the chunk before the first occurrence
of `sep`, and the remainder after that occurrence when there is one. -/
def breakOnSep (sep : List Char) : List Char → List Char × Option (List Char)
  | [] => ([], none)
  | c :: rest =>
      if sep.isPrefixOf (c :: rest) then
        ([], some ((c :: rest).drop sep.length))
      else
        let p := breakOnSep sep rest
        (c :: p.1, p.2)

/-- Fueled worker for Python `str.split(sep)`; `fuel = length of the input`
always suffices for a non-empty separator since each cut strictly shortens the
remainder. -/
def pySplitGo (sep : List Char) : Nat → List Char → List (List Char)
  | 0, l => [l]
  | fuel + 1, l =>
      match breakOnSep sep l with
      | (chunk, none) => [chunk]
      | (chunk, some rest) => chunk :: pySplitGo sep fuel rest

/-- Python `s.split(sep)` for a non-empty separator. -/
def pySplit (s sep : String) : List String :=
  (pySplitGo sep.toList s.toList.length s.toList).map List.asString

/-- Structured error envelope returned over HTTP: status code, `error_type`
tag and human-readable detail (`ErrorResponse` in `models.py` plus the status
the handler attaches). -/
structure ReqError where
  status_code : Nat
  error_type : Option String
  detail : String
deriving DecidableEq, Repr

/-- `extract_owner_repo` (lines 57–81 of `main.py`): strip trailing slashes,
require the substring `github.com`, take the text after the last occurrence of
`github.com/`, split it on `/`, require at least two segments, and return the
first two.  Any violation raises `HTTPException(400)` with an `invalid_url`
envelope. -/
def extract_owner_repo (repo_url0 : String) : Except ReqError (String × String) :=
  let repo_url := pyRstripSlash repo_url0
  if ¬ pyContains repo_url "github.com" then
    .error ⟨400, some "invalid_url", "Invalid GitHub repository URL: Invalid GitHub URL"⟩
  else
    let parts := pySplit ((pySplit repo_url "github.com/").getLastD "") "/"
    if parts.length < 2 then
      .error ⟨400, some "invalid_url",
        "Invalid GitHub repository URL: Invalid GitHub repository URL format"⟩
    else
      .ok (parts.getD 0 "", parts.getD 1 "")

/-- The request body of `POST /analyze` (`GitHubIssueRequest` in `models.py`):
a repository URL and an issue number constrained by `Field(..., gt=0)`. -/
structure GitHubIssueRequest where
  repo_url : String
  issue_number : Int
deriving DecidableEq, Repr

/-- FastAPI validates the request body against `GitHubIssueRequest` before the
endpoint body runs; a violation of `issue_number: gt=0` is a validation error
answered with status 422 (`validation_exception_handler`, lines 105–115 of
`main.py`). -/
def validate_request (repo_url : String) (issue_number : Int) :
    Except ReqError GitHubIssueRequest :=
  if 0 < issue_number then
    .ok ⟨repo_url, issue_number⟩
  else
    .error ⟨422, some "validation_error", "Validation error"⟩

/-- The input-validation boundary of `POST /analyze`: body validation, then
`extract_owner_repo` (lines 138–149 of `main.py`).  Returns the `(owner,
repo)` pair handed to the fetch step, or the error envelope of the rejected
request. -/
def analyze_request_boundary (repo_url : String) (issue_number : Int) :
    Except ReqError (String × String) :=
  match validate_request repo_url issue_number with
  | .error e => .error e
  | .ok req => extract_owner_repo req.repo_url

/-! ## Startup and health (`app/llm_analyzer.py` 40–59 / 147–151, `app/main.py` 182–201) -/

/-- The two recognized provider kinds. -/
inductive Provider where
  | openai
  | gemini
deriving DecidableEq, Repr

/-- The environment variables `LLMAnalyzer.__init__` reads; `none` models an
unset variable (`os.getenv` returning `None`). -/
structure EnvConfig where
  llm_provider : Option String
  openai_api_key : Option String
  gemini_api_key : Option String
deriving DecidableEq, Repr

/-- The singleton construction (`llm_analyzer.py` lines 40–59 and 147–151):
`LLMAnalyzer()` selects the provider from `LLM_PROVIDER` (default `openai`,
lower-cased) and raises `ValueError` when the selected provider's API key is
unset or empty, or when the provider is unrecognized; the module-level
`try/except` then leaves the singleton as `None`. -/
def init_llm_analyzer (env : EnvConfig) : Option Provider :=
  let provider := pyLower (env.llm_provider.getD "openai")
  if provider = "openai" then
    if env.openai_api_key.getD "" = "" then none else some .openai
  else if provider = "gemini" then
    if env.gemini_api_key.getD "" = "" then none else some .gemini
  else
    none

/-- The `/health` response (`health_check`, lines 182–201 of `main.py`), with
the HTTP status FastAPI attaches to a normal return. -/
structure HealthResponse where
  http_status : Nat
  status : String
  github_api : String
  llm_service : String
deriving DecidableEq, Repr

/-- `GET /health`: always a plain 200 return with `status: "healthy"`;
`github_api` is `"operational"` (the `GitHubClient()` singleton always
constructs), and `llm_service` reports on the analyzer singleton. -/
def health_check (analyzer : Option Provider) : HealthResponse :=
  { http_status := 200
    status := "healthy"
    github_api := "operational"
    llm_service := if analyzer.isSome then "operational" else "unavailable" }

/-- Sample data for the concrete cache witnesses. -/
def sampleKey : CacheKey := ⟨"octocat", "hello-world", 1⟩

/-- A client state with no cached entry at all. -/
def emptyState : ClientState := ⟨fun _ => none, fun _ => none, 300⟩

/-- A client state holding one bundle for `sampleKey` that expires at time 10. -/
def staleState : ClientState :=
  ⟨fun k => if k = sampleKey then some ⟨"old-issue", ["old-comment"]⟩ else none,
   fun k => if k = sampleKey then some 10 else none, 300⟩

/-! ## Helper lemmas -/

/-- The normal form produced by `normalizeTypeStr` is always a known enum
value: the cast `IssueType(parsed_type)` in `analyze_issue` never raises. -/
theorem normalizeTypeStr_mem (raw : String) :
    issueTypeValues.contains (normalizeTypeStr raw) = true := by
  simp only [normalizeTypeStr]
  split
  · assumption
  · decide

/-- Inversion for pydantic construction: a successfully validated
`IssueAnalysis` carries exactly the supplied fields, and its label list has
between 1 and 5 entries. -/
theorem mkIssueAnalysis_ok {s p i : String} {t : IssueType} {ls : List String}
    {a : IssueAnalysis} (h : mkIssueAnalysis s t p ls i = some a) :
    a = ⟨s, t, p, ls, i⟩ ∧ 1 ≤ ls.length ∧ ls.length ≤ 5 := by
  unfold mkIssueAnalysis at h
  split at h
  · cases h
    exact ⟨rfl, by assumption⟩
  · cases h

/-- Inversion for `analyze_issue`: a returned analysis comes from a parsed
reply and is exactly the normalized record, whose label list passed the
1-to-5 validation. -/
theorem analyze_issue_ok {r : ProviderResult} {a : IssueAnalysis}
    (h : analyze_issue r = .ok a) :
    ∃ parsed, r = .content (some parsed)
      ∧ a = ⟨parsed.summary?.getD "",
             (IssueType.ofValue? (normalizeTypeStr (typeFieldStr parsed.type?))).getD .other,
             normalizePriority parsed.priority_score?,
             normalizeLabels parsed.suggested_labels?,
             parsed.potential_impact?.getD ""⟩
      ∧ 1 ≤ (normalizeLabels parsed.suggested_labels?).length
      ∧ (normalizeLabels parsed.suggested_labels?).length ≤ 5 := by
  cases r with
  | transportError msg => cases h
  | content parsed? =>
    cases parsed? with
    | none => cases h
    | some parsed =>
      refine ⟨parsed, rfl, ?_⟩
      simp only [analyze_issue] at h
      split at h
      case _ a' heq =>
        cases h
        rcases mkIssueAnalysis_ok heq with ⟨rfl, h1, h2⟩
        exact ⟨rfl, h1, h2⟩
      case _ => cases h

/-- `cache_get` never changes `ttl_seconds`. -/
theorem cache_get_ttl (st : ClientState) (now : Nat) (key : CacheKey) :
    (cache_get st now key).2.ttl_seconds = st.ttl_seconds := by
  unfold cache_get
  split_ifs <;> rfl

/-- A live cache entry makes `get_issue_data` answer from memory: the cached
bundle comes back, no HTTP request is issued and the state is untouched. -/
theorem get_issue_data_hit (st : ClientState) (now : Nat) (key : CacheKey)
    (issueNet : CacheKey → HttpOutcome String)
    (commentsNet : CacheKey → HttpOutcome (List String)) (b : Bundle)
    (h1 : st.cache key = some b) (h2 : now < (st.cache_expiry key).getD 0) :
    get_issue_data st now key issueNet commentsNet = ⟨.ok b, st, 0⟩ := by
  have hcg : cache_get st now key = (some b, st) := by
    unfold cache_get
    rw [if_pos ⟨by rw [h1]; rfl, h2⟩, h1]
  unfold get_issue_data
  rw [hcg]

/-! ## Claim theorems -/

/-- C2: the type-normalization step of `analyze_issue` trims whitespace,
lower-cases, and replaces spaces with underscores in the provider-returned
type, substitutes `other` whenever the normalized result is not one of the
five known type values (so it always yields a known value and never fails),
and on the inputs `"Bug"`, `" FEATURE REQUEST "` and `"nonsense"` yields
`bug`, `feature_request` and `other` respectively. -/
theorem C2_type_normalization (raw : String) :
    (normalizeTypeStr raw =
      (if issueTypeValues.contains (replaceSpaces (pyLower (pyStrip raw)))
       then replaceSpaces (pyLower (pyStrip raw)) else "other"))
    ∧ issueTypeValues.contains (normalizeTypeStr raw) = true
    ∧ (issueTypeValues.contains (replaceSpaces (pyLower (pyStrip raw))) = false →
        normalizeTypeStr raw = "other")
    ∧ normalizeTypeStr "Bug" = "bug"
    ∧ normalizeTypeStr " FEATURE REQUEST " = "feature_request"
    ∧ normalizeTypeStr "nonsense" = "other" := by
  refine ⟨rfl, normalizeTypeStr_mem raw, ?_, by decide, by decide, by decide⟩
  intro h
  simp only [normalizeTypeStr]
  rw [if_neg (fun hc => by rw [h] at hc; exact Bool.noConfusion hc)]

/-- Witness for C2 at the concrete unrecognized input `"nonsense"`. -/
theorem C2_type_normalization_witness :
    issueTypeValues.contains (replaceSpaces (pyLower (pyStrip "nonsense"))) = false
    ∧ normalizeTypeStr "nonsense" = "other" :=
  ⟨by decide, (C2_type_normalization "nonsense").2.2.1 (by decide)⟩

/-- C3: an unparseable provider reply makes `analyze_issue` fail with the
dedicated malformed-response error kind (the `ValueError` of line 142),
which is a different error kind from the one wrapping transport and other
failures (the generic `Exception` of line 144), and no analysis value is
returned. -/
theorem C3_malformed_response_error :
    (∀ a, analyze_issue (ProviderResult.content none) ≠ Except.ok a)
    ∧ (∃ m, analyze_issue (ProviderResult.content none)
        = .error (AnalyzerError.malformedResponse m))
    ∧ (∀ msg, ∃ m, analyze_issue (ProviderResult.transportError msg)
        = .error (AnalyzerError.analysisError m))
    ∧ (∀ m m', AnalyzerError.malformedResponse m ≠ AnalyzerError.analysisError m') :=
  ⟨fun _ h => Except.noConfusion h,
   ⟨_, rfl⟩,
   fun _ => ⟨_, rfl⟩,
   fun _ _ h => AnalyzerError.noConfusion h⟩

/-- Witness for C3: the malformed-response error at the unparseable reply. -/
theorem C3_malformed_response_error_witness :
    ∃ m, analyze_issue (ProviderResult.content none)
      = .error (AnalyzerError.malformedResponse m) :=
  C3_malformed_response_error.2.1

/-- C4: a 404 on the comments endpoint yields an empty comment list rather
than an error, while a 404 on the issue fetch raises a hard not-found error
with status 404. -/
theorem C4_comments_404_soft_issue_404_hard (owner repo : String) (n : Nat)
    (rateRemaining rateReset : Option String) :
    get_issue_comments (HttpOutcome.httpError 404 rateRemaining rateReset) = .ok []
    ∧ ∃ d, get_issue owner repo n (HttpOutcome.httpError 404 rateRemaining rateReset)
        = .error ⟨404, d⟩ :=
  ⟨rfl, ⟨_, rfl⟩⟩

/-- C7: any analysis `analyze_issue` returns has at most 5 suggested labels;
the truncation step cuts an 8-entry provider list to exactly its first 5
entries, and defaults a missing field to the empty sequence. -/
theorem C7_labels_truncated (r : ProviderResult) (a : IssueAnalysis) (l : List String) :
    (analyze_issue r = .ok a → a.suggested_labels.length ≤ 5)
    ∧ (l.length = 8 → (normalizeLabels (some l)).length = 5)
    ∧ normalizeLabels none = [] := by
  refine ⟨?_, ?_, rfl⟩
  · intro h
    rcases analyze_issue_ok h with ⟨parsed, _, rfl, _, h5⟩
    exact h5
  · intro h
    simp [normalizeLabels, h]

/-- Witness for C7: an 8-label reply is truncated to exactly 5 and the
returned analysis carries 5 labels. -/
theorem C7_labels_truncated_witness :
    analyze_issue (.content (some ⟨some "s", some (.jstr "bug"), some (.jstr "2"),
        some ["a", "b", "c", "d", "e", "f", "g", "h"], some "i"⟩))
      = .ok ⟨"s", .bug, "2", ["a", "b", "c", "d", "e"], "i"⟩
    ∧ (["a", "b", "c", "d", "e"] : List String).length ≤ 5
    ∧ (normalizeLabels (some ["a", "b", "c", "d", "e", "f", "g", "h"])).length = 5 := by
  refine ⟨rfl, ?_, ?_⟩
  · exact (C7_labels_truncated (.content (some ⟨some "s", some (.jstr "bug"), some (.jstr "2"),
      some ["a", "b", "c", "d", "e", "f", "g", "h"], some "i"⟩))
      ⟨"s", .bug, "2", ["a", "b", "c", "d", "e"], "i"⟩ []).1 rfl
  · exact (C7_labels_truncated (.content none) ⟨"", .other, "", [], ""⟩
      ["a", "b", "c", "d", "e", "f", "g", "h"]).2.1 rfl

/-- C9: a parsed provider reply whose `suggested_labels` is absent or empty
never yields an `IssueAnalysis`: after the empty-sequence defaulting the
`min_items=1` validation fails, so `analyze_issue` errors through the generic
analysis-error path. -/
theorem C9_empty_labels_never_ok (parsed : ProviderReply)
    (h : parsed.suggested_labels? = none ∨ parsed.suggested_labels? = some []) :
    (∀ a, analyze_issue (.content (some parsed)) ≠ Except.ok a)
    ∧ ∃ m, analyze_issue (.content (some parsed))
        = .error (AnalyzerError.analysisError m) := by
  have hl : normalizeLabels parsed.suggested_labels? = [] := by
    rcases h with h | h <;> simp [normalizeLabels, h]
  have he : analyze_issue (.content (some parsed))
      = .error (.analysisError "Error during LLM analysis: validation error") := by
    simp only [analyze_issue, hl]
    rw [show mkIssueAnalysis (parsed.summary?.getD "") _ (normalizePriority parsed.priority_score?)
      [] (parsed.potential_impact?.getD "") = none from rfl]
  refine ⟨fun a ha => ?_, ⟨_, he⟩⟩
  rw [he] at ha
  cases ha

/-- Witness for C9 at a reply with no `suggested_labels` key. -/
theorem C9_empty_labels_never_ok_witness :
    ∃ m, analyze_issue (.content (some ⟨none, none, none, none, none⟩))
      = .error (AnalyzerError.analysisError m) :=
  (C9_empty_labels_never_ok ⟨none, none, none, none, none⟩ (Or.inl rfl)).2

/-- C10: in any analysis returned for a parsed reply, a missing `type` field
classifies the issue as `other`, a missing `priority_score` yields the string
`"1"`, and a numeric `priority_score` is coerced to its decimal string form. -/
theorem C10_missing_field_defaults (parsed : ProviderReply) (a : IssueAnalysis) (n : Int)
    (h : analyze_issue (.content (some parsed)) = .ok a) :
    (parsed.type? = none → a.type = IssueType.other)
    ∧ (parsed.priority_score? = none → a.priority_score = "1")
    ∧ (parsed.priority_score? = some (.jnum n) → a.priority_score = toString n) := by
  rcases analyze_issue_ok h with ⟨parsed', heq, rfl, -, -⟩
  cases heq
  refine ⟨?_, ?_, ?_⟩
  · intro ht
    simp [typeFieldStr, ht]
    decide
  · intro hp
    simp [normalizePriority, hp]
  · intro hp
    simp [normalizePriority, hp, JsonVal.isStr, JsonVal.pyStr]

/-- Witness for C10: a reply with `type` and `priority_score` both absent is
classified `other` with priority `"1"`; a numeric priority `4` becomes `"4"`. -/
theorem C10_missing_field_defaults_witness :
    ((⟨"", .other, "1", ["x"], ""⟩ : IssueAnalysis).type = IssueType.other
      ∧ (⟨"", .other, "1", ["x"], ""⟩ : IssueAnalysis).priority_score = "1")
    ∧ (⟨"", .other, "4", ["x"], ""⟩ : IssueAnalysis).priority_score = toString (4 : Int) := by
  refine ⟨⟨?_, ?_⟩, ?_⟩
  · exact (C10_missing_field_defaults ⟨none, none, none, some ["x"], none⟩
      ⟨"", .other, "1", ["x"], ""⟩ 0 rfl).1 rfl
  · exact (C10_missing_field_defaults ⟨none, none, none, some ["x"], none⟩
      ⟨"", .other, "1", ["x"], ""⟩ 0 rfl).2.1 rfl
  · exact (C10_missing_field_defaults ⟨none, none, some (.jnum 4), some ["x"], none⟩
      ⟨"", .other, "4", ["x"], ""⟩ 4 rfl).2.2 rfl

/-- C5 counterexample: a non-positive issue number is rejected by the request
body validation with status 422, not with the claimed 400. -/
theorem C5_counterexample_nonpositive_number_is_422 :
    analyze_request_boundary "https://github.com/facebook/react" 0
      = .error ⟨422, some "validation_error", "Validation error"⟩
    ∧ (422 : Nat) ≠ 400 :=
  ⟨rfl, by decide⟩

/-- C5 (amended): a malformed repository URL — the `github.com` marker absent,
or fewer than two path segments after it — is rejected with HTTP 400 and an
`invalid_url` envelope (in particular `https://google.com/notgithub` yields
400), while a non-positive issue number is rejected at the request boundary by
body validation with HTTP 422. -/
theorem C5_invalid_input_handling (url : String) (n : Int) :
    (0 < n → pyContains (pyRstripSlash url) "github.com" = false →
      analyze_request_boundary url n
        = .error ⟨400, some "invalid_url", "Invalid GitHub repository URL: Invalid GitHub URL"⟩)
    ∧ (0 < n → pyContains (pyRstripSlash url) "github.com" = true →
        (pySplit ((pySplit (pyRstripSlash url) "github.com/").getLastD "") "/").length < 2 →
        analyze_request_boundary url n
          = .error ⟨400, some "invalid_url",
              "Invalid GitHub repository URL: Invalid GitHub repository URL format"⟩)
    ∧ (n ≤ 0 → analyze_request_boundary url n
        = .error ⟨422, some "validation_error", "Validation error"⟩)
    ∧ analyze_request_boundary "https://google.com/notgithub" 1
        = .error ⟨400, some "invalid_url", "Invalid GitHub repository URL: Invalid GitHub URL"⟩ := by
  refine ⟨?_, ?_, ?_, rfl⟩
  · intro hn hc
    simp only [analyze_request_boundary, validate_request, if_pos hn]
    simp only [extract_owner_repo, hc]
    rfl
  · intro hn hc hlt
    simp only [analyze_request_boundary, validate_request, if_pos hn]
    simp only [extract_owner_repo]
    rw [if_neg (not_not_intro hc), if_pos hlt]
  · intro hn
    simp only [analyze_request_boundary, validate_request]
    rw [if_neg (by omega)]

/-- Witness for C5 at the spec's concrete URL and at issue number 0. -/
theorem C5_invalid_input_handling_witness :
    (pyContains (pyRstripSlash "https://google.com/notgithub") "github.com" = false
      ∧ analyze_request_boundary "https://google.com/notgithub" 1
          = .error ⟨400, some "invalid_url", "Invalid GitHub repository URL: Invalid GitHub URL"⟩)
    ∧ analyze_request_boundary "https://github.com/facebook/react" 0
        = .error ⟨422, some "validation_error", "Validation error"⟩ := by
  refine ⟨⟨by decide, ?_⟩, ?_⟩
  · exact (C5_invalid_input_handling "https://google.com/notgithub" 1).1 (by decide) (by decide)
  · exact (C5_invalid_input_handling "https://github.com/facebook/react" 0).2.2.1 (by decide)

/-- C8: `/health` always answers 200 with status `healthy`, whatever the
analyzer's state; its `llm_service` dependency reads `unavailable` exactly
when the analyzer singleton failed to initialize, which happens in particular
whenever the selected provider's credential is unset or empty. -/
theorem C8_health_always_healthy (env : EnvConfig) (a : Option Provider) :
    ((health_check a).http_status = 200 ∧ (health_check a).status = "healthy")
    ∧ ((health_check (init_llm_analyzer env)).llm_service = "unavailable"
        ↔ init_llm_analyzer env = none)
    ∧ (pyLower (env.llm_provider.getD "openai") = "openai" →
        env.openai_api_key.getD "" = "" → init_llm_analyzer env = none)
    ∧ (pyLower (env.llm_provider.getD "openai") = "gemini" →
        env.gemini_api_key.getD "" = "" → init_llm_analyzer env = none) := by
  refine ⟨⟨rfl, rfl⟩, ?_, ?_, ?_⟩
  · cases h : init_llm_analyzer env <;> simp [health_check, h]
  · intro h1 h2
    simp [init_llm_analyzer, h1, h2]
  · intro h1 h2
    simp [init_llm_analyzer, h1, h2]

/-- Witness for C8: with `LLM_PROVIDER=openai` and no API key, the analyzer is
`None` and `/health` still reports 200/healthy with `llm_service:
unavailable`. -/
theorem C8_health_always_healthy_witness :
    ((health_check (init_llm_analyzer ⟨some "openai", none, none⟩)).llm_service = "unavailable"
      ↔ init_llm_analyzer ⟨some "openai", none, none⟩ = none)
    ∧ init_llm_analyzer ⟨some "openai", none, none⟩ = none
    ∧ (health_check (init_llm_analyzer ⟨some "openai", none, none⟩)).http_status = 200 := by
  refine ⟨(C8_health_always_healthy ⟨some "openai", none, none⟩ none).2.1, ?_, ?_⟩
  · exact (C8_health_always_healthy ⟨some "openai", none, none⟩ none).2.2.1 (by decide) rfl
  · exact (C8_health_always_healthy ⟨some "openai", none, none⟩
      (init_llm_analyzer ⟨some "openai", none, none⟩)).1.1

/-- C1: once `get_issue_data` has fetched a bundle over the network, a second
call for the same `(owner, repo, issue_number)` key at any time strictly
within the TTL window returns the identical cached bundle, issues no HTTP
request (the second call's network oracles are arbitrary and unused), and
leaves the cache state unchanged. -/
theorem C1_second_fetch_within_ttl (st : ClientState) (t0 t1 : Nat) (key : CacheKey)
    (inet1 : CacheKey → HttpOutcome String) (cnet1 : CacheKey → HttpOutcome (List String))
    (inet2 : CacheKey → HttpOutcome String) (cnet2 : CacheKey → HttpOutcome (List String))
    (b : Bundle)
    (hok : (get_issue_data st t0 key inet1 cnet1).result = .ok b)
    (hfresh : (get_issue_data st t0 key inet1 cnet1).networkCalls ≠ 0)
    (httl : t1 < t0 + st.ttl_seconds) :
    get_issue_data (get_issue_data st t0 key inet1 cnet1).state t1 key inet2 cnet2
      = ⟨.ok b, (get_issue_data st t0 key inet1 cnet1).state, 0⟩ := by
  rcases hcg : cache_get st t0 key with ⟨v?, st1⟩
  have httl1 : st1.ttl_seconds = st.ttl_seconds := by
    have h := cache_get_ttl st t0 key
    rw [hcg] at h
    exact h
  cases v? with
  | some c =>
      exfalso
      apply hfresh
      unfold get_issue_data
      rw [hcg]
  | none =>
      rcases hgi : get_issue key.owner key.repo key.issue_number (inet1 key) with e | issue
      · exfalso
        unfold get_issue_data at hok
        rw [hcg, hgi] at hok
        exact Except.noConfusion hok
      · rcases hgc : get_issue_comments (cnet1 key) with e | comments
        · exfalso
          unfold get_issue_data at hok
          rw [hcg, hgi, hgc] at hok
          exact Except.noConfusion hok
        · have hr : get_issue_data st t0 key inet1 cnet1
              = ⟨.ok ⟨issue, comments⟩, cache_set st1 t0 key ⟨issue, comments⟩, 2⟩ := by
            unfold get_issue_data
            rw [hcg, hgi, hgc]
          have hb : b = ⟨issue, comments⟩ := by
            rw [hr] at hok
            exact (Except.ok.inj hok).symm
          subst hb
          rw [hr]
          apply get_issue_data_hit
          · simp [cache_set]
          · simp only [cache_set, if_pos rfl, Option.getD_some]
            rw [httl1]
            exact httl

/-- Witness for C1: a cold fetch at time 0 followed, at time 100 < 300, by a
call whose network oracles only fail — it still answers from the cache. -/
theorem C1_second_fetch_within_ttl_witness :
    get_issue_data
        (get_issue_data emptyState 0 sampleKey (fun _ => .success "issue-json")
          (fun _ => .success ["comment-json"])).state
        100 sampleKey (fun _ => .httpError 500 none none) (fun _ => .requestError "down")
      = ⟨.ok ⟨"issue-json", ["comment-json"]⟩,
         (get_issue_data emptyState 0 sampleKey (fun _ => .success "issue-json")
           (fun _ => .success ["comment-json"])).state, 0⟩ :=
  C1_second_fetch_within_ttl emptyState 0 100 sampleKey
    (fun _ => .success "issue-json") (fun _ => .success ["comment-json"])
    (fun _ => .httpError 500 none none) (fun _ => .requestError "down")
    ⟨"issue-json", ["comment-json"]⟩ rfl (by decide) (by decide)

/-- C6: the cache invariant. A lookup returns an entry exactly while the
current time is strictly before its expiry; a lookup of an expired entry
purges exactly that key (lookups never touch other keys, so no proactive
sweep happens); and once the TTL has elapsed the next `get_issue_data` for
that key performs fresh network calls and replaces the entry wholesale with
expiry `now + ttl_seconds`. -/
theorem C6_cache_ttl_invariant (st : ClientState) (now : Nat) (key : CacheKey) (b : Bundle) :
    ((cache_get st now key).1 = some b ↔
      (st.cache key = some b ∧ now < (st.cache_expiry key).getD 0))
    ∧ (st.cache key = some b → (st.cache_expiry key).getD 0 ≤ now →
        ((cache_get st now key).1 = none
         ∧ (cache_get st now key).2.cache key = none
         ∧ (cache_get st now key).2.cache_expiry key = none))
    ∧ (∀ k, k ≠ key →
        (cache_get st now key).2.cache k = st.cache k
        ∧ (cache_get st now key).2.cache_expiry k = st.cache_expiry k)
    ∧ (∀ (inet : CacheKey → HttpOutcome String) (cnet : CacheKey → HttpOutcome (List String))
        (issue : String) (comments : List String),
        st.cache key = some b → (st.cache_expiry key).getD 0 ≤ now →
        get_issue key.owner key.repo key.issue_number (inet key) = .ok issue →
        get_issue_comments (cnet key) = .ok comments →
        ((get_issue_data st now key inet cnet).networkCalls = 2
         ∧ (get_issue_data st now key inet cnet).result = .ok ⟨issue, comments⟩
         ∧ (get_issue_data st now key inet cnet).state.cache key = some ⟨issue, comments⟩
         ∧ (get_issue_data st now key inet cnet).state.cache_expiry key
             = some (now + st.ttl_seconds))) := by
  refine ⟨⟨?_, ?_⟩, ?_, ?_, ?_⟩
  · intro h
    unfold cache_get at h
    split_ifs at h with h1 h2
    exact ⟨h, h1.2⟩
  · rintro ⟨hb, hlt⟩
    unfold cache_get
    rw [if_pos ⟨by rw [hb]; rfl, hlt⟩]
    exact hb
  · intro hb hexp
    have hcond : ¬((st.cache key).isSome = true ∧ now < (st.cache_expiry key).getD 0) := by
      rintro ⟨-, hlt⟩
      omega
    unfold cache_get
    rw [if_neg hcond, if_pos (by rw [hb]; rfl)]
    exact ⟨rfl, by simp, by simp⟩
  · intro k hk
    unfold cache_get
    split_ifs
    · exact ⟨rfl, rfl⟩
    · exact ⟨by simp [hk], by simp [hk]⟩
    · exact ⟨rfl, rfl⟩
  · intro inet cnet issue comments hb hexp hgi hgc
    have hcond : ¬((st.cache key).isSome = true ∧ now < (st.cache_expiry key).getD 0) := by
      rintro ⟨-, hlt⟩
      omega
    have hcg : cache_get st now key =
        (none,
          { st with
            cache := fun k => if k = key then none else st.cache k,
            cache_expiry := fun k => if k = key then none else st.cache_expiry k }) := by
      unfold cache_get
      rw [if_neg hcond, if_pos (by rw [hb]; rfl)]
    have hr : get_issue_data st now key inet cnet
        = ⟨.ok ⟨issue, comments⟩,
           cache_set
             { st with
               cache := fun k => if k = key then none else st.cache k,
               cache_expiry := fun k => if k = key then none else st.cache_expiry k }
             now key ⟨issue, comments⟩, 2⟩ := by
      unfold get_issue_data
      rw [hcg, hgi, hgc]
    rw [hr]
    exact ⟨rfl, rfl, by simp [cache_set], by simp [cache_set]⟩

/-- Witness for C6: the stale entry for `sampleKey` (expiry 10) looked up at
time 10 is refetched over the network and replaced with expiry `10 + 300`. -/
theorem C6_cache_ttl_invariant_witness :
    (get_issue_data staleState 10 sampleKey (fun _ => .success "fresh-issue")
        (fun _ => .success ["fresh-comment"])).networkCalls = 2
    ∧ (get_issue_data staleState 10 sampleKey (fun _ => .success "fresh-issue")
        (fun _ => .success ["fresh-comment"])).result = .ok ⟨"fresh-issue", ["fresh-comment"]⟩
    ∧ (get_issue_data staleState 10 sampleKey (fun _ => .success "fresh-issue")
        (fun _ => .success ["fresh-comment"])).state.cache sampleKey
        = some ⟨"fresh-issue", ["fresh-comment"]⟩
    ∧ (get_issue_data staleState 10 sampleKey (fun _ => .success "fresh-issue")
        (fun _ => .success ["fresh-comment"])).state.cache_expiry sampleKey
        = some (10 + staleState.ttl_seconds) :=
  (C6_cache_ttl_invariant staleState 10 sampleKey ⟨"old-issue", ["old-comment"]⟩).2.2.2
    (fun _ => .success "fresh-issue") (fun _ => .success ["fresh-comment"])
    "fresh-issue" ["fresh-comment"] (by decide) (by decide) rfl rfl

end IssueAssistant
